import Mathlib

/-
Verification of the stock-valuation service (src/app.py) against its
specification.  The Python module is shallowly embedded: the fundamentals
dictionary becomes a structure of optional rationals, float arithmetic is
idealised as exact rational arithmetic (the few places where IEEE special
values matter are modelled explicitly and noted in comments), the in-memory
cache becomes a function from ticker to an optional (result, timestamp)
pair with time passed explicitly, and the Flask request handler becomes a
pure function from a request, a fetch outcome and a cache state to a
response and a new cache state.
-/

namespace StockApp

/-- The fundamentals dictionary returned by the market-data provider
(the fields of interest read by app.py via info.get).  A field that is
absent from the dictionary is modelled as none. -/
structure Info where
  trailingPE : Option ℚ
  forwardPE : Option ℚ
  industryPE : Option ℚ
  pegRatio : Option ℚ
  priceToBook : Option ℚ
  profitMargins : Option ℚ
  fiftyTwoWeekHigh : Option ℚ
  fiftyTwoWeekLow : Option ℚ
  currentPrice : Option ℚ
  regularMarketPrice : Option ℚ
  longName : Option String
  marketCap : Option ℚ
  sector : Option String
  industry : Option String
deriving DecidableEq

/-- Python truthiness of an optional numeric field: None and 0 are falsy,
every other number is truthy. -/
def truthy : Option ℚ → Bool
  | none => false
  | some q => q != 0

/-- Round a rational to the nearest integer, ties going to the even
integer.  This is the rounding used by Python round() and by fixed point
string formatting (idealised from binary floats to exact rationals). -/
def roundHalfEven (q : ℚ) : ℤ :=
  let f := ⌊q⌋
  if q - f < 1/2 then f
  else if 1/2 < q - f then f + 1
  else if f % 2 = 0 then f else f + 1

/-- Left-pad a digit string with zeros up to the requested width. -/
def padZeros (width : Nat) (s : String) : String :=
  (List.replicate (width - s.length) '0').asString ++ s

/-- Python fixed-point formatting with prec digits after the point,
as in the f-strings of app.py (idealised to exact rationals). -/
def pyFormat (prec : Nat) (q : ℚ) : String :=
  let sign := if q < 0 then "-" else ""
  let n := roundHalfEven (|q| * (10 : ℚ) ^ prec)
  let base : ℤ := (10 : ℤ) ^ prec
  let ip := n / base
  let fp := n % base
  if prec = 0 then sign ++ toString ip
  else sign ++ toString ip ++ "." ++ padZeros prec (toString fp.toNat)

/-- Python builtin min of two numbers: returns the first argument on
ties. -/
def pyMin (a b : ℚ) : ℚ := if b < a then b else a

/-- Python builtin max of two numbers: returns the first argument on
ties. -/
def pyMax (a b : ℚ) : ℚ := if a < b then b else a

/-- P/E rule of calculate_rational_score (app.py lines 41 to 47).
The Python guard is the truthiness test if pe_ratio, so a present value
of exactly 0 also skips the rule. -/
def peRule (pe_opt : Option ℚ) (industry_pe : ℚ) : ℚ × List String :=
  match pe_opt with
  | some pe =>
    if pe ≠ 0 then
      if pe < industry_pe * 0.8 then
        (-20, ["Low P/E ratio (" ++ pyFormat 2 pe ++ " vs industry " ++ pyFormat 2 industry_pe ++ ")"])
      else if pe > industry_pe * 1.2 then
        (20, ["High P/E ratio (" ++ pyFormat 2 pe ++ " vs industry " ++ pyFormat 2 industry_pe ++ ")"])
      else (0, [])
    else (0, [])
  | none => (0, [])

/-- PEG rule of calculate_rational_score (app.py lines 49 to 56),
with the same truthiness guard. -/
def pegRule (peg_opt : Option ℚ) : ℚ × List String :=
  match peg_opt with
  | some peg =>
    if peg ≠ 0 then
      if peg < 1 then
        (-15, ["Attractive PEG ratio (" ++ pyFormat 2 peg ++ ")"])
      else if peg > 2 then
        (15, ["High PEG ratio (" ++ pyFormat 2 peg ++ ")"])
      else (0, [])
    else (0, [])
  | none => (0, [])

/-- Price-to-book rule of calculate_rational_score (app.py lines 58 to 65),
with the same truthiness guard. -/
def pbRule (pb_opt : Option ℚ) : ℚ × List String :=
  match pb_opt with
  | some pb =>
    if pb ≠ 0 then
      if pb < 1 then
        (-15, ["Trading below book value (" ++ pyFormat 2 pb ++ ")"])
      else if pb > 3 then
        (10, ["High price-to-book (" ++ pyFormat 2 pb ++ ")"])
      else (0, [])
    else (0, [])
  | none => (0, [])

/-- Profit-margin rule of calculate_rational_score (app.py lines 67 to 74),
with the same truthiness guard. -/
def marginRule (margin_opt : Option ℚ) : ℚ × List String :=
  match margin_opt with
  | some m =>
    if m ≠ 0 then
      if m > 0.20 then
        (-10, ["Strong profit margins (" ++ pyFormat 1 (m * 100) ++ "%)"])
      else if m < 0.05 then
        (10, ["Weak profit margins (" ++ pyFormat 1 (m * 100) ++ "%)"])
      else (0, [])
    else (0, [])
  | none => (0, [])

/-- calculate_rational_score (app.py lines 31 to 79): the four independent
additive rules applied in order, the total clamped to the interval from
-50 to 50 at the end, the reason strings accumulated in rule order.
The industry P/E defaults to 25 when the field is absent. -/
def calculate_rational_score (info : Info) : ℚ × List String :=
  let industry_pe := info.industryPE.getD 25
  let r1 := peRule info.trailingPE industry_pe
  let r2 := pegRule info.pegRatio
  let r3 := pbRule info.priceToBook
  let r4 := marginRule info.profitMargins
  let score := r1.1 + r2.1 + r3.1 + r4.1
  (pyMax (-50) (pyMin 50 score), r1.2 ++ r2.2 ++ r3.2 ++ r4.2)

/-- One daily bar of the fetched price history (the columns of the
pandas frame read by calculate_adaptive_score). -/
structure Bar where
  close : ℚ
  high : ℚ
  low : ℚ
deriving DecidableEq

/-- The last k elements of a list (pandas rolling(k).mean().iloc[-1]
averages over exactly these). -/
def lastN (k : Nat) (l : List ℚ) : List ℚ := l.drop (l.length - k)

/-- Mean of the last k elements of a list. -/
def meanLast (k : Nat) (l : List ℚ) : ℚ := (lastN k l).sum / (k : ℚ)

/-- Maximum of a list of rationals (df column max; the empty case is
never reached where this is used). -/
def listMax : List ℚ → ℚ
  | [] => 0
  | h :: t => t.foldl max h

/-- Minimum of a list of rationals. -/
def listMin : List ℚ → ℚ
  | [] => 0
  | h :: t => t.foldl min h

/-- calculate_adaptive_score (app.py lines 81 to 141).  The bars argument
is the daily history returned by ticker_data.history(period="1y"); the
function takes it directly since the fetch itself is external.  Float
arithmetic is idealised as rational arithmetic; the two divisions that can
hit a zero denominator in the source (the RSI ratio and the 52-week range
position) are modelled with the IEEE outcomes the source would produce
(infinity or NaN), as noted inline. -/
def calculate_adaptive_score (bars : List Bar) (info : Info) : ℚ × List String :=
  if bars.length < 50 then (0, ["Insufficient historical data"])
  else
    let closes := bars.map Bar.close
    let current_price := closes.getLastD 0
    let ma_50 := meanLast 50 closes
    let ma_200 := meanLast 200 closes
    let r1 : ℚ × List String :=
      if current_price < ma_50 * 0.95 then
        (-15, ["Trading below 50-day MA ($" ++ pyFormat 2 ma_50 ++ ")"])
      else if current_price > ma_50 * 1.05 then
        (15, ["Trading above 50-day MA ($" ++ pyFormat 2 ma_50 ++ ")"])
      else (0, [])
    let r2 : ℚ × List String :=
      if bars.length ≥ 200 then
        if current_price < ma_200 * 0.90 then
          (-20, ["Significantly below 200-day MA ($" ++ pyFormat 2 ma_200 ++ ")"])
        else if current_price > ma_200 * 1.10 then
          (20, ["Significantly above 200-day MA ($" ++ pyFormat 2 ma_200 ++ ")"])
        else (0, [])
      else (0, [])
    -- df.diff() yields a leading NaN followed by consecutive differences;
    -- Series.where replaces the NaN (its condition is false) by 0, so the
    -- gain and loss series both start with 0.
    let deltas := List.zipWith (fun a b => a - b) closes.tail closes
    let gains := 0 :: deltas.map (fun d => if d > 0 then d else 0)
    let losses := 0 :: deltas.map (fun d => if d < 0 then -d else 0)
    let avg_gain := meanLast 14 gains
    let avg_loss := meanLast 14 losses
    -- In the source rs = gain/loss and rsi = 100 - 100/(1+rs) in float
    -- arithmetic: with avg_loss = 0 and avg_gain positive, rs is +inf and
    -- rsi is 100 (overbought); with both averages 0, rsi is NaN and
    -- neither threshold comparison holds.
    let r3 : ℚ × List String :=
      if avg_loss = 0 then
        if avg_gain = 0 then (0, [])
        else (15, ["Overbought RSI (" ++ pyFormat 1 (100 : ℚ) ++ ")"])
      else
        let rsi := 100 - 100 / (1 + avg_gain / avg_loss)
        if rsi < 30 then (-15, ["Oversold RSI (" ++ pyFormat 1 rsi ++ ")"])
        else if rsi > 70 then (15, ["Overbought RSI (" ++ pyFormat 1 rsi ++ ")"])
        else (0, [])
    let week_52_high := info.fiftyTwoWeekHigh.getD (listMax (bars.map Bar.high))
    let week_52_low := info.fiftyTwoWeekLow.getD (listMin (bars.map Bar.low))
    -- range_position = (current_price - low) / (high - low); with equal
    -- bounds the float division yields +inf, -inf or NaN depending on the
    -- sign of the numerator, reproduced explicitly here.
    let r4 : ℚ × List String :=
      if week_52_high - week_52_low = 0 then
        if current_price > week_52_low then (10, ["Near 52-week high (inf% of range)"])
        else if current_price < week_52_low then (-10, ["Near 52-week low (-inf% of range)"])
        else (0, [])
      else
        let range_position := (current_price - week_52_low) / (week_52_high - week_52_low)
        if range_position < 0.25 then
          (-10, ["Near 52-week low (" ++ pyFormat 1 (range_position * 100) ++ "% of range)"])
        else if range_position > 0.75 then
          (10, ["Near 52-week high (" ++ pyFormat 1 (range_position * 100) ++ "% of range)"])
        else (0, [])
    let score := r1.1 + r2.1 + r3.1 + r4.1
    (pyMax (-50) (pyMin 50 score), r1.2 ++ r2.2 ++ r3.2 ++ r4.2)

/-- Python round(x, 2): round half to even at two decimal places
(idealised from binary floats to exact rationals). -/
def pyRound2 (q : ℚ) : ℚ := (roundHalfEven (q * 100) : ℚ) / 100

/-- The recommendation bucketing of the analyze handler (app.py lines
166 to 180 and 208 to 222): five strict threshold comparisons checked in
this exact order, first match wins; returns the recommendation label and
the signal class. -/
def bucket (combined_score : ℚ) : String × String :=
  if combined_score < -20 then ("STRONG BUY", "strong-buy")
  else if combined_score < -5 then ("BUY", "buy")
  else if combined_score > 20 then ("STRONG SELL", "strong-sell")
  else if combined_score > 5 then ("SELL", "sell")
  else ("HOLD", "hold")

/-- The response dictionary built by the analyze handler (app.py lines
224 to 244).  The raw fundamental fields hold the string N/A when absent,
modelled as none. -/
structure AnalysisResult where
  ticker : String
  company_name : String
  current_price : ℚ
  rational_score : ℚ
  adaptive_score : ℚ
  combined_score : ℚ
  recommendation : String
  signal_class : String
  rational_reasons : List String
  adaptive_reasons : List String
  rational_weight : ℚ
  adaptive_weight : ℚ
  pe_ratio : Option ℚ
  forward_pe : Option ℚ
  peg_ratio : Option ℚ
  price_to_book : Option ℚ
  market_cap : Option ℚ
  sector : Option String
  industry : Option String
deriving DecidableEq

/-- The cache-hit recombination of the analyze handler (app.py lines
160 to 186): recompute the combined score from the cached rational and
adaptive scores with the newly supplied weight, rebucket, and update the
five affected fields of the cached dictionary in place. -/
def recombine (cached_result : AnalysisResult) (rational_weight : ℚ) : AnalysisResult :=
  let adaptive_weight := 1 - rational_weight
  let combined_score :=
    cached_result.rational_score * rational_weight + cached_result.adaptive_score * adaptive_weight
  let rs := bucket combined_score
  { cached_result with
      combined_score := pyRound2 combined_score
      recommendation := rs.1
      signal_class := rs.2
      rational_weight := rational_weight
      adaptive_weight := adaptive_weight }

/-- The module-level cache dictionary: ticker to (result, timestamp).
Time is an explicit rational number of minutes. -/
abbrev Cache := String → Option (AnalysisResult × ℚ)

/-- CACHE_DURATION = timedelta(minutes=10). -/
def CACHE_DURATION : ℚ := 10

/-- cache_data (app.py lines 27 to 29): unconditionally overwrite the
entry for the ticker, stamping the current time. -/
def cache_data (c : Cache) (ticker : String) (data : AnalysisResult) (now : ℚ) : Cache :=
  fun t => if t = ticker then some (data, now) else c t

/-- get_cached_data (app.py lines 18 to 25): return the stored result only
while the entry is younger than CACHE_DURATION; a stale entry behaves as
absent but is not removed (lookup never writes). -/
def get_cached_data (c : Cache) (ticker : String) (now : ℚ) : Option AnalysisResult :=
  match c ticker with
  | some dt => if now - dt.2 < CACHE_DURATION then some dt.1 else none
  | none => none

/-- The rational_weight field of the request body as seen by line 152,
float(data.get(rational_weight_key, 50)): the field can be absent (the
default 50 is used), can parse to a float, or can make float() raise a
ValueError carrying the given message. -/
inductive WeightInput where
  | absent
  | value (q : ℚ)
  | malformed (msg : String)

/-- The JSON request body of the analyze endpoint: an optional ticker
string and the rational_weight field. -/
structure AnalyzeRequest where
  ticker : Option String
  rational_weight : WeightInput

/-- The outcome of the external yfinance fetch on a cache miss: either the
fundamentals dictionary together with the daily history, or a raised
exception carrying its message. -/
inductive FetchOutcome where
  | ok (info : Info) (bars : List Bar)
  | raised (msg : String)

/-- An HTTP response of the analyze endpoint: status code, error payload
when failing, result payload when succeeding. -/
structure HttpResponse where
  status : Nat
  error : Option String
  result : Option AnalysisResult
deriving DecidableEq

/-- Python str.upper (ASCII-idealised): uppercase every character. -/
def pyUpper (s : String) : String := ⟨s.data.map Char.toUpper⟩

/-- Python str.lower (ASCII-idealised): lowercase every character. -/
def pyLower (s : String) : String := ⟨s.data.map Char.toLower⟩

/-- Python str.strip: drop whitespace from both ends. -/
def pyStrip (s : String) : String :=
  ⟨((s.data.dropWhile Char.isWhitespace).reverse.dropWhile Char.isWhitespace).reverse⟩

/-- Boolean test that the pattern list of characters occurs as a prefix of
the text list. -/
def leadsWith : List Char → List Char → Bool
  | [], _ => true
  | _ :: _, [] => false
  | a :: as, b :: bs => a == b && leadsWith as bs

/-- Boolean test that the pattern occurs contiguously somewhere in the
text (Python substring membership). -/
def containsSub (pat : List Char) : List Char → Bool
  | [] => pat.isEmpty
  | b :: bs => leadsWith pat (b :: bs) || containsSub pat bs

/-- The throttling test of the exception handler (app.py line 253):
the lowercased message contains rate, or the raw message contains 429. -/
def rateLimited (error_message : String) : Bool :=
  containsSub ("rate").data (pyLower error_message).data ||
  containsSub ("429").data error_message.data

/-- The except branch of the analyze handler (app.py lines 251 to 255):
classify a raised exception message as 429 or 500. -/
def classifyException (msg : String) : HttpResponse :=
  if rateLimited msg then
    { status := 429,
      error := some ("Rate limit reached. Please wait 15-20 minutes before trying again."),
      result := none }
  else
    { status := 500, error := some ("Error: " ++ msg), result := none }

/-- The cache-miss tail of the analyze handler (app.py lines 190 to 249):
fetch, resolve the current price (currentPrice falling back to
regularMarketPrice, a falsy value meaning not found), compute both scores,
combine with the supplied weight, bucket, build the response dictionary
and store it in the cache with a fresh timestamp.  A raised fetch is
classified by the except branch. -/
def analyzeFetch (ticker : String) (rational_weight : ℚ) (fetch : FetchOutcome)
    (c : Cache) (now : ℚ) : HttpResponse × Cache :=
  match fetch with
  | .raised msg => (classifyException msg, c)
  | .ok info bars =>
    let current_price := info.currentPrice <|> info.regularMarketPrice
    if ¬ truthy current_price then
      ({ status := 404,
         error := some ("Could not fetch data for " ++ ticker ++
           ". Please check the ticker symbol or try again later."),
         result := none }, c)
    else
      let rs := calculate_rational_score info
      let ad := calculate_adaptive_score bars info
      let adaptive_weight := 1 - rational_weight
      let combined_score := rs.1 * rational_weight + ad.1 * adaptive_weight
      let bk := bucket combined_score
      let response : AnalysisResult :=
        { ticker := ticker
          company_name := info.longName.getD ticker
          current_price := current_price.getD 0
          rational_score := pyRound2 rs.1
          adaptive_score := pyRound2 ad.1
          combined_score := pyRound2 combined_score
          recommendation := bk.1
          signal_class := bk.2
          rational_reasons := rs.2
          adaptive_reasons := ad.2
          rational_weight := rational_weight
          adaptive_weight := adaptive_weight
          pe_ratio := info.trailingPE
          forward_pe := info.forwardPE
          peg_ratio := info.pegRatio
          price_to_book := info.priceToBook
          market_cap := info.marketCap
          sector := info.sector
          industry := info.industry }
      ({ status := 200, error := none, result := some response },
       cache_data c ticker response now)

/-- The body of the analyze handler after ticker validation (app.py lines
154 to 249).  The source calls get_cached_data and, on a hit, mutates the
returned dictionary in place, which updates the stored cache entry while
leaving its timestamp untouched; that aliasing is modelled by matching on
the stored entry directly and writing the recombined result back under
the original timestamp. -/
def analyzeValidated (ticker : String) (rational_weight : ℚ) (fetch : FetchOutcome)
    (c : Cache) (now : ℚ) : HttpResponse × Cache :=
  if ticker = "" then
    ({ status := 400, error := some ("Please enter a ticker symbol"), result := none }, c)
  else
    match c ticker with
    | some dt =>
      if now - dt.2 < CACHE_DURATION then
        let res2 := recombine dt.1 rational_weight
        ({ status := 200, error := none, result := some res2 },
         fun t => if t = ticker then some (res2, dt.2) else c t)
      else analyzeFetch ticker rational_weight fetch c now
    | none => analyzeFetch ticker rational_weight fetch c now

/-- The weight actually used once float() has succeeded: the parsed value,
or the default 50 when the field was absent. -/
def parsedWeight : WeightInput → ℚ
  | .value q => q
  | _ => 50

/-- The analyze handler (app.py lines 147 to 255).  Note the source
order: the ticker string is extracted on line 151, float() runs on line
152, and the empty-ticker check only happens on line 154, so a weight
field that fails float parsing raises before ticker validation and is
classified by the except branch. -/
def analyze (req : AnalyzeRequest) (fetch : FetchOutcome) (c : Cache) (now : ℚ) :
    HttpResponse × Cache :=
  let ticker := pyStrip (pyUpper (req.ticker.getD ""))
  match req.rational_weight with
  | .malformed msg => (classifyException msg, c)
  | w => analyzeValidated ticker (parsedWeight w / 100) fetch c now

/-
Helper lemmas shared by the claim theorems.
-/

/-- The final clamp of both scorers keeps the score in the interval from
-50 to 50. -/
theorem clamp_in_range (q : ℚ) : -50 ≤ pyMax (-50) (pyMin 50 q) ∧ pyMax (-50) (pyMin 50 q) ≤ 50 := by
  unfold pyMax pyMin
  split <;> split <;> constructor <;> linarith

/-- The rational score is always within the clamp interval. -/
theorem rational_score_in_range (info : Info) :
    -50 ≤ (calculate_rational_score info).1 ∧ (calculate_rational_score info).1 ≤ 50 := by
  unfold calculate_rational_score
  exact clamp_in_range _

/-- The adaptive score is always within the clamp interval (the early
return for short histories gives 0, which is inside it). -/
theorem adaptive_score_in_range (bars : List Bar) (info : Info) :
    -50 ≤ (calculate_adaptive_score bars info).1 ∧ (calculate_adaptive_score bars info).1 ≤ 50 := by
  unfold calculate_adaptive_score
  split
  · exact ⟨by norm_num, by norm_num⟩
  · exact clamp_in_range _

/-- A convex combination of two values from the interval from -50 to 50
stays in that interval. -/
theorem convex_combination_in_range (r a w : ℚ) (hw0 : 0 ≤ w) (hw1 : w ≤ 1)
    (hr1 : -50 ≤ r) (hr2 : r ≤ 50) (ha1 : -50 ≤ a) (ha2 : a ≤ 50) :
    -50 ≤ r * w + a * (1 - w) ∧ r * w + a * (1 - w) ≤ 50 := by
  constructor
  · nlinarith [mul_nonneg hw0 (by linarith : (0:ℚ) ≤ r + 50),
      mul_nonneg (by linarith : (0:ℚ) ≤ 1 - w) (by linarith : (0:ℚ) ≤ a + 50)]
  · nlinarith [mul_nonneg hw0 (by linarith : (0:ℚ) ≤ 50 - r),
      mul_nonneg (by linarith : (0:ℚ) ≤ 1 - w) (by linarith : (0:ℚ) ≤ 50 - a)]

/-- roundHalfEven never moves a value by more than one half downward. -/
theorem roundHalfEven_ge (x : ℚ) : x - 1/2 ≤ (roundHalfEven x : ℚ) := by
  have h1 := Int.floor_le x
  have h2 := Int.lt_floor_add_one x
  simp only [roundHalfEven]
  split
  · linarith
  · split
    · push_cast; linarith
    · split
      · linarith
      · push_cast; linarith

/-- roundHalfEven never moves a value by more than one half upward. -/
theorem roundHalfEven_le (x : ℚ) : (roundHalfEven x : ℚ) ≤ x + 1/2 := by
  have h1 := Int.floor_le x
  have h2 := Int.lt_floor_add_one x
  simp only [roundHalfEven]
  split
  · linarith
  · split
    · push_cast; linarith
    · split
      · linarith
      · push_cast; linarith

/-- Rounding to two decimals keeps a value of the interval from -50 to 50
inside the interval. -/
theorem pyRound2_in_range (q : ℚ) (h1 : -50 ≤ q) (h2 : q ≤ 50) :
    -50 ≤ pyRound2 q ∧ pyRound2 q ≤ 50 := by
  have hl := roundHalfEven_ge (q * 100)
  have hu := roundHalfEven_le (q * 100)
  have hub : roundHalfEven (q * 100) ≤ 5000 := by
    have hq : (roundHalfEven (q * 100) : ℚ) < 5001 := by linarith
    have hz : roundHalfEven (q * 100) < 5001 := by exact_mod_cast hq
    omega
  have hlb : -5000 ≤ roundHalfEven (q * 100) := by
    have hq : (-5001 : ℚ) < (roundHalfEven (q * 100) : ℚ) := by linarith
    have hz : (-5001 : ℤ) < roundHalfEven (q * 100) := by exact_mod_cast hq
    omega
  have hub2 : (roundHalfEven (q * 100) : ℚ) ≤ 5000 := by exact_mod_cast hub
  have hlb2 : (-5000 : ℚ) ≤ (roundHalfEven (q * 100) : ℚ) := by exact_mod_cast hlb
  unfold pyRound2
  constructor <;> linarith

/-
Claim theorems.
-/

/-- The combination formula of the analyze handler for a raw weight given
on the percent scale: line 152 divides by 100 and lines 205 to 206 form
the weighted sum. -/
def combined_of (rational_score adaptive_score rational_weight_raw : ℚ) : ℚ :=
  let rational_weight := rational_weight_raw / 100
  let adaptive_weight := 1 - rational_weight
  rational_score * rational_weight + adaptive_score * adaptive_weight

/-- C2: for every weight w in the interval from 0 to 100 and scores r and
a each in the interval from -50 to 50, the combined score
r * (w/100) + a * (1 - w/100) lies in the interval from -50 to 50. -/
theorem C2_combined_score_in_range (w r a : ℚ)
    (hw0 : 0 ≤ w) (hw1 : w ≤ 100)
    (hr1 : -50 ≤ r) (hr2 : r ≤ 50) (ha1 : -50 ≤ a) (ha2 : a ≤ 50) :
    -50 ≤ combined_of r a w ∧ combined_of r a w ≤ 50 := by
  unfold combined_of
  exact convex_combination_in_range r a (w / 100)
    (by linarith) (by linarith) hr1 hr2 ha1 ha2

/-- Witness for C2 at w = 30, r = 50, a = -50. -/
theorem C2_combined_score_in_range_witness :
    -50 ≤ combined_of 50 (-50) 30 ∧ combined_of 50 (-50) 30 ≤ 50 :=
  C2_combined_score_in_range 30 50 (-50) (by norm_num) (by norm_num)
    (by norm_num) (by norm_num) (by norm_num) (by norm_num)

/-- C3: the recommendation bucketing is the stated pure function of the
combined score: -30, -10, 0, 10 and 30 map to STRONG BUY, BUY, HOLD, SELL
and STRONG SELL, and the boundary values -20, -5, 5 and 20 map to BUY,
HOLD, HOLD and SELL because every comparison is strict. -/
theorem C3_bucketing :
    bucket (-30) = ("STRONG BUY", "strong-buy") ∧
    bucket (-10) = ("BUY", "buy") ∧
    bucket 0 = ("HOLD", "hold") ∧
    bucket 10 = ("SELL", "sell") ∧
    bucket 30 = ("STRONG SELL", "strong-sell") ∧
    bucket (-20) = ("BUY", "buy") ∧
    bucket (-5) = ("HOLD", "hold") ∧
    bucket 5 = ("HOLD", "hold") ∧
    bucket 20 = ("SELL", "sell") := by
  with_unfolding_all decide

/-- The fundamentals snapshot of claim C4: pe 10, industry pe 25,
peg 0.5, price to book 0.5, profit margin 0.25. -/
def infoC4 : Info :=
  { trailingPE := some 10, forwardPE := none, industryPE := some 25,
    pegRatio := some (1/2), priceToBook := some (1/2), profitMargins := some (1/4),
    fiftyTwoWeekHigh := none, fiftyTwoWeekLow := none, currentPrice := none,
    regularMarketPrice := none, longName := none, marketCap := none,
    sector := none, industry := none }

/-- C4: on the snapshot with pe 10, industry pe 25, peg 0.5, price to
book 0.5 and margin 0.25 the rational scorer returns -50 (the four
negative adjustments sum to -60 and the clamp applies after all of them)
together with the four reason strings in rule order. -/
theorem C4_rational_score_clamped :
    calculate_rational_score infoC4 =
      (-50, ["Low P/E ratio (10.00 vs industry 25.00)",
             "Attractive PEG ratio (0.50)",
             "Trading below book value (0.50)",
             "Strong profit margins (25.0%)"]) := by
  with_unfolding_all decide

/-- C6: whenever the fetched history holds fewer than 50 bars, the
adaptive scorer returns exactly (0, the insufficient-data message),
regardless of the fundamentals snapshot and of the bar contents. -/
theorem C6_insufficient_history (bars : List Bar) (info : Info)
    (h : bars.length < 50) :
    calculate_adaptive_score bars info = (0, ["Insufficient historical data"]) := by
  unfold calculate_adaptive_score
  rw [if_pos h]

/-- The all-absent fundamentals snapshot, used by several witnesses. -/
def infoNone : Info :=
  { trailingPE := none, forwardPE := none, industryPE := none,
    pegRatio := none, priceToBook := none, profitMargins := none,
    fiftyTwoWeekHigh := none, fiftyTwoWeekLow := none, currentPrice := none,
    regularMarketPrice := none, longName := none, marketCap := none,
    sector := none, industry := none }

/-- Witness for C6 on an empty history. -/
theorem C6_insufficient_history_witness :
    calculate_adaptive_score [] infoNone = (0, ["Insufficient historical data"]) :=
  C6_insufficient_history [] infoNone (by norm_num)

/-- C8: the cache-hit recombination is idempotent: recombining an already
recombined result with the same weight changes nothing, so the combined
score, recommendation and signal class agree both times. -/
theorem C8_recombine_idempotent (cached_result : AnalysisResult) (rational_weight : ℚ) :
    recombine (recombine cached_result rational_weight) rational_weight =
      recombine cached_result rational_weight := rfl

/-- C7: cache round trip.  Storing a result and looking it up strictly
within the 10-minute TTL returns the identical stored result; a lookup at
or after the TTL behaves as absent while the stale entry stays in storage;
a never-stored ticker also behaves as absent; and storing again
unconditionally overwrites the entry with a fresh timestamp. -/
theorem C7_cache_roundtrip :
    (∀ (c : Cache) (ticker : String) (r : AnalysisResult) (t u : ℚ),
      u - t < CACHE_DURATION →
        get_cached_data (cache_data c ticker r t) ticker u = some r) ∧
    (∀ (c : Cache) (ticker : String) (r : AnalysisResult) (t u : ℚ),
      CACHE_DURATION ≤ u - t →
        get_cached_data (cache_data c ticker r t) ticker u = none) ∧
    (∀ (c : Cache) (ticker : String) (u : ℚ),
      c ticker = none → get_cached_data c ticker u = none) ∧
    (∀ (c : Cache) (ticker : String) (r : AnalysisResult) (t : ℚ),
      cache_data c ticker r t ticker = some (r, t)) ∧
    (∀ (c : Cache) (ticker : String) (r r2 : AnalysisResult) (t t2 : ℚ),
      cache_data (cache_data c ticker r t) ticker r2 t2 ticker = some (r2, t2)) := by
  refine ⟨?_, ?_, ?_, ?_, ?_⟩
  · intro c ticker r t u h
    simp [get_cached_data, cache_data, if_pos h]
  · intro c ticker r t u h
    simp [get_cached_data, cache_data]
    linarith
  · intro c ticker u h
    simp [get_cached_data, h]
  · intro c ticker r t
    simp [cache_data]
  · intro c ticker r r2 t t2
    simp [cache_data]

/-- A blank analysis result used to build concrete cache entries in
witnesses and counterexamples. -/
def blankResult : AnalysisResult :=
  { ticker := "", company_name := "", current_price := 0, rational_score := 0,
    adaptive_score := 0, combined_score := 0, recommendation := "",
    signal_class := "", rational_reasons := [], adaptive_reasons := [],
    rational_weight := 0, adaptive_weight := 0, pe_ratio := none,
    forward_pe := none, peg_ratio := none, price_to_book := none,
    market_cap := none, sector := none, industry := none }

/-- The everywhere-empty cache. -/
def emptyCache : Cache := fun _ => none

/-- Witness for C7: store at time 0, fresh lookup at time 5, stale lookup
at time 10, and a miss on the empty cache. -/
theorem C7_cache_roundtrip_witness :
    get_cached_data (cache_data emptyCache ("A") blankResult 0) ("A") 5 = some blankResult ∧
    get_cached_data (cache_data emptyCache ("A") blankResult 0) ("A") 10 = none ∧
    get_cached_data emptyCache ("A") 7 = none :=
  ⟨C7_cache_roundtrip.1 emptyCache ("A") blankResult 0 5
      (by norm_num [CACHE_DURATION]),
   C7_cache_roundtrip.2.1 emptyCache ("A") blankResult 0 10
      (by norm_num [CACHE_DURATION]),
   C7_cache_roundtrip.2.2.1 emptyCache ("A") 7 rfl⟩

/-- The snapshot refuting claim C5: the profit margin and PEG fields are
both present with value exactly 0. -/
def infoC5 : Info :=
  { trailingPE := none, forwardPE := none, industryPE := none,
    pegRatio := some 0, priceToBook := none, profitMargins := some 0,
    fiftyTwoWeekHigh := none, fiftyTwoWeekLow := none, currentPrice := none,
    regularMarketPrice := none, longName := none, marketCap := none,
    sector := none, industry := none }

/-- Counterexample to C5: with the profit margin present and equal to 0
(certainly below 5%) and the PEG ratio present and equal to 0 (certainly
below 1), the rational scorer returns (0, no reasons): the truthiness
guards of lines 50 and 68 skip both rules, instead of the +10 and -15
adjustments the claim requires (which would give (-5, two reasons)). -/
theorem C5_counterexample :
    calculate_rational_score infoC5 = (0, []) ∧
    (marginRule (some 0)).1 = 0 ∧ (pegRule (some 0)).1 = 0 := by
  with_unfolding_all decide

/-- C5 as amended: each rational rule is skipped when its field is absent
or when its value is exactly 0 (Python truthiness); whenever the field is
present with a nonzero value the rule is evaluated, so a present nonzero
margin below 5% receives +10 and a present nonzero PEG below 1 receives
-15. -/
theorem C5_truthiness_guard (m g : ℚ)
    (hm0 : m ≠ 0) (hm : m < 1/20) (hg0 : g ≠ 0) (hg : g < 1) :
    marginRule (some m) =
      (10, ["Weak profit margins (" ++ pyFormat 1 (m * 100) ++ "%)"]) ∧
    pegRule (some g) =
      (-15, ["Attractive PEG ratio (" ++ pyFormat 2 g ++ ")"]) ∧
    marginRule (some 0) = (0, []) ∧ pegRule (some 0) = (0, []) ∧
    marginRule none = (0, []) ∧ pegRule none = (0, []) := by
  refine ⟨?_, ?_, by with_unfolding_all decide, by with_unfolding_all decide, rfl, rfl⟩
  · simp only [marginRule]
    rw [if_pos hm0, if_neg (by norm_num; linarith), if_pos (by norm_num; linarith)]
  · simp only [pegRule]
    rw [if_pos hg0, if_pos hg]

/-- Witness for C5 as amended, at margin 0.01 and PEG 0.5. -/
theorem C5_truthiness_guard_witness :
    marginRule (some (1/100)) =
      (10, ["Weak profit margins (" ++ pyFormat 1 ((1/100) * 100) ++ "%)"]) ∧
    pegRule (some (1/2)) =
      (-15, ["Attractive PEG ratio (" ++ pyFormat 2 (1/2) ++ ")"]) ∧
    marginRule (some 0) = (0, []) ∧ pegRule (some 0) = (0, []) ∧
    marginRule none = (0, []) ∧ pegRule none = (0, []) :=
  C5_truthiness_guard (1/100) (1/2) (by norm_num) (by norm_num)
    (by norm_num) (by norm_num)

/-
Helper lemmas about the analyze handler.
-/

/-- When the weight field does not make float() raise, analyze is ticker
normalisation followed by the validated body. -/
theorem analyze_nonmalformed (req : AnalyzeRequest) (fetch : FetchOutcome)
    (c : Cache) (now : ℚ)
    (hw : ∀ m, req.rational_weight ≠ WeightInput.malformed m) :
    analyze req fetch c now =
      analyzeValidated (pyStrip (pyUpper (req.ticker.getD "")))
        (parsedWeight req.rational_weight / 100) fetch c now := by
  unfold analyze
  cases hwi : req.rational_weight with
  | malformed msg => exact absurd hwi (hw msg)
  | absent => rfl
  | value q => rfl

/-- When the weight field makes float() raise, analyze classifies the
exception before ever validating the ticker. -/
theorem analyze_malformed (req : AnalyzeRequest) (fetch : FetchOutcome)
    (c : Cache) (now : ℚ) (msg : String)
    (hw : req.rational_weight = WeightInput.malformed msg) :
    analyze req fetch c now = (classifyException msg, c) := by
  unfold analyze
  rw [hw]

/-- Unfolding the lookup at a stored entry: the TTL test decides the
answer. -/
theorem get_cached_data_entry (c : Cache) (ticker : String) (now : ℚ)
    (dt : AnalysisResult × ℚ) (hct : c ticker = some dt) :
    get_cached_data c ticker now =
      if now - dt.2 < CACHE_DURATION then some dt.1 else none := by
  unfold get_cached_data
  rw [hct]

/-- A nonempty ticker that misses the cache goes to the fetch path. -/
theorem validated_miss (ticker : String) (rw : ℚ) (fetch : FetchOutcome)
    (c : Cache) (now : ℚ)
    (hne : ticker ≠ "")
    (hmiss : get_cached_data c ticker now = none) :
    analyzeValidated ticker rw fetch c now = analyzeFetch ticker rw fetch c now := by
  unfold analyzeValidated
  rw [if_neg hne]
  cases hct : c ticker with
  | none => simp only [hct]
  | some dt =>
    rw [get_cached_data_entry c ticker now dt hct] at hmiss
    simp only [hct]
    split at hmiss
    · exact absurd hmiss (by simp)
    · rename_i hstale
      rw [if_neg hstale]

/-- A throttling message classifies as 429. -/
theorem classify_rate (msg : String) (h : rateLimited msg = true) :
    classifyException msg =
      { status := 429,
        error := some ("Rate limit reached. Please wait 15-20 minutes before trying again."),
        result := none } := by
  unfold classifyException
  rw [if_pos h]

/-- Any other message classifies as 500 carrying the error text. -/
theorem classify_other (msg : String) (h : rateLimited msg = false) :
    classifyException msg =
      { status := 500, error := some ("Error: " ++ msg), result := none } := by
  unfold classifyException
  rw [if_neg (by simp [h])]

/-- classifyException never carries a result payload. -/
theorem classify_no_result (msg : String) : (classifyException msg).result = none := by
  unfold classifyException
  split <;> rfl

/-- Any successful fetch-path response has its combined score inside the
interval from -50 to 50 provided the weight is in the unit interval. -/
theorem fetch_combined_in_range (ticker : String) (rw : ℚ) (fetch : FetchOutcome)
    (c : Cache) (now : ℚ) (resp : AnalysisResult)
    (hw0 : 0 ≤ rw) (hw1 : rw ≤ 1)
    (hr : (analyzeFetch ticker rw fetch c now).1.result = some resp) :
    -50 ≤ resp.combined_score ∧ resp.combined_score ≤ 50 := by
  cases fetch with
  | raised msg =>
    simp only [analyzeFetch] at hr
    have h2 : (classifyException msg).result = some resp := hr
    rw [classify_no_result msg] at h2
    exact absurd h2 (by simp)
  | ok info bars =>
    simp only [analyzeFetch] at hr
    split at hr
    · exact absurd hr (by simp)
    · simp only [Option.some.injEq] at hr
      subst hr
      have hb := convex_combination_in_range
        (calculate_rational_score info).1 (calculate_adaptive_score bars info).1 rw
        hw0 hw1
        (rational_score_in_range info).1 (rational_score_in_range info).2
        (adaptive_score_in_range bars info).1 (adaptive_score_in_range bars info).2
      exact pyRound2_in_range _ hb.1 hb.2

/-- Any successful response of the validated body has its combined score
inside the interval from -50 to 50, provided the weight is in the unit
interval and every cached entry carries scores inside the interval. -/
theorem validated_combined_in_range (ticker : String) (rw : ℚ) (fetch : FetchOutcome)
    (c : Cache) (now : ℚ) (resp : AnalysisResult)
    (hw0 : 0 ≤ rw) (hw1 : rw ≤ 1)
    (hc : ∀ t e, c t = some e →
      -50 ≤ e.1.rational_score ∧ e.1.rational_score ≤ 50 ∧
      -50 ≤ e.1.adaptive_score ∧ e.1.adaptive_score ≤ 50)
    (hr : (analyzeValidated ticker rw fetch c now).1.result = some resp) :
    -50 ≤ resp.combined_score ∧ resp.combined_score ≤ 50 := by
  unfold analyzeValidated at hr
  split at hr
  · exact absurd hr (by simp)
  · split at hr
    · rename_i dt hct
      split at hr
      · simp only [Option.some.injEq] at hr
        subst hr
        have hsc := hc ticker dt hct
        have hb := convex_combination_in_range
          dt.1.rational_score dt.1.adaptive_score rw hw0 hw1
          hsc.1 hsc.2.1 hsc.2.2.1 hsc.2.2.2
        have : (recombine dt.1 rw).combined_score =
            pyRound2 (dt.1.rational_score * rw + dt.1.adaptive_score * (1 - rw)) := rfl
        rw [this]
        exact pyRound2_in_range _ hb.1 hb.2
      · exact fetch_combined_in_range ticker rw fetch c now resp hw0 hw1 hr
    · exact fetch_combined_in_range ticker rw fetch c now resp hw0 hw1 hr

/-
C1.
-/

/-- The cache entry used by the counterexample to C1: a legitimately
storable result whose rational score is 50 and adaptive score is -50. -/
def resC1 : AnalysisResult :=
  { blankResult with rational_score := 50, adaptive_score := -50 }

/-- A cache holding that entry for ticker A, stamped at time 0. -/
def cC1 : Cache := fun t => if t = "A" then some (resC1, 0) else none

/-- The request of the counterexample to C1: the handler accepts the
weight field 200 without any range check (float(200)/100 = 2). -/
def reqC1 : AnalyzeRequest := { ticker := some "A", rational_weight := .value 200 }

/-- Counterexample to C1: the analyze endpoint accepts rational_weight
200; on a cache hit whose scores are 50 and -50 (both inside the clamp
interval) it answers combined score 150, far outside the interval from
-50 to 50.  The handler never restricts the weight, so the claimed
invariant fails. -/
theorem C1_counterexample :
    (analyze reqC1 (.ok infoNone []) cC1 5).1.result.map AnalysisResult.combined_score
      = some 150 ∧ ¬ ((150 : ℚ) ≤ 50) := by
  with_unfolding_all decide

/-- C1 as amended: whenever the caller-supplied rational_weight lies in
the interval from 0 to 100 (as paragraph 6 of the specification assumes)
and every cached entry carries scores inside the clamp interval (as every
entry the handler itself stores does), every successful response of the
analyze endpoint has its combined score in the interval from -50 to 50. -/
theorem C1_combined_bounded (req : AnalyzeRequest) (fetch : FetchOutcome)
    (c : Cache) (now : ℚ) (resp : AnalysisResult)
    (hw : ∀ q, req.rational_weight = WeightInput.value q → 0 ≤ q ∧ q ≤ 100)
    (hc : ∀ t e, c t = some e →
      -50 ≤ e.1.rational_score ∧ e.1.rational_score ≤ 50 ∧
      -50 ≤ e.1.adaptive_score ∧ e.1.adaptive_score ≤ 50)
    (hr : (analyze req fetch c now).1.result = some resp) :
    -50 ≤ resp.combined_score ∧ resp.combined_score ≤ 50 := by
  cases hwi : req.rational_weight with
  | malformed msg =>
    rw [analyze_malformed req fetch c now msg hwi] at hr
    have h2 : (classifyException msg).result = some resp := hr
    rw [classify_no_result msg] at h2
    exact absurd h2 (by simp)
  | absent =>
    rw [analyze_nonmalformed req fetch c now
      (fun m h => by rw [hwi] at h; cases h), hwi] at hr
    exact validated_combined_in_range _ _ _ _ _ _
      (by norm_num [parsedWeight]) (by norm_num [parsedWeight]) hc hr
  | value q =>
    rw [analyze_nonmalformed req fetch c now
      (fun m h => by rw [hwi] at h; cases h), hwi] at hr
    have hq := hw q hwi
    exact validated_combined_in_range _ _ _ _ _ _
      (by simp only [parsedWeight]; linarith [hq.1])
      (by simp only [parsedWeight]; linarith [hq.2]) hc hr

/-- The request of the C1 witness: default weight, fresh ticker. -/
def reqC1W : AnalyzeRequest := { ticker := some "A", rational_weight := .absent }

/-- A snapshot carrying only a current price, enough for a successful
fetch-path response. -/
def infoC1W : Info := { infoNone with currentPrice := some 100 }

/-- The response produced by the C1 witness run. -/
def respC1W : AnalysisResult :=
  ((analyze reqC1W (.ok infoC1W []) emptyCache 0).1.result).getD blankResult

/-- Witness for C1 as amended: a concrete successful run whose combined
score the theorem bounds. -/
theorem C1_combined_bounded_witness :
    -50 ≤ respC1W.combined_score ∧ respC1W.combined_score ≤ 50 :=
  C1_combined_bounded reqC1W (.ok infoC1W []) emptyCache 0 respC1W
    (by intro q hq; cases hq)
    (by intro t e h; exact absurd h (by simp [emptyCache]))
    (by with_unfolding_all decide)

/-
C9.
-/

/-- The request of the counterexample to C9: the ticker is empty, but the
rational_weight field fails float parsing (the ValueError message that
float() raises for a non-numeric string). -/
def reqC9 : AnalyzeRequest :=
  { ticker := some "",
    rational_weight := .malformed ("could not convert string to float: abc") }

/-- Counterexample to C9: a request with an empty ticker whose weight
field is unparseable returns 500, not the claimed 400, because float()
runs on line 152 before the empty-ticker check on line 154. -/
theorem C9_counterexample :
    (analyze reqC9 (.ok infoNone []) emptyCache 0).1.status = 500 ∧
    (analyze reqC9 (.ok infoNone []) emptyCache 0).1.status ≠ 400 := by
  with_unfolding_all decide

/-- C9 as amended: the taxonomy holds once weight parsing is accounted
for.  A weight field that fails float parsing is classified by the
exception branch (429 on throttling text, else 500) before ticker
validation; for every request whose weight field parses (or is absent),
an empty or missing ticker gives 400; a cache-missing fetch whose current
price is unresolvable gives 404; a raised fetch whose message indicates
rate limiting (contains rate case-insensitively or 429) gives 429; and
any other raised fetch gives 500 carrying the error text. -/
theorem C9_error_taxonomy :
    (∀ (req : AnalyzeRequest) (fetch : FetchOutcome) (c : Cache) (now : ℚ),
      (∀ m, req.rational_weight ≠ WeightInput.malformed m) →
      pyStrip (pyUpper (req.ticker.getD "")) = "" →
      (analyze req fetch c now).1.status = 400) ∧
    (∀ (req : AnalyzeRequest) (info : Info) (bars : List Bar) (c : Cache) (now : ℚ),
      (∀ m, req.rational_weight ≠ WeightInput.malformed m) →
      pyStrip (pyUpper (req.ticker.getD "")) ≠ "" →
      get_cached_data c (pyStrip (pyUpper (req.ticker.getD ""))) now = none →
      truthy (info.currentPrice <|> info.regularMarketPrice) = false →
      (analyze req (.ok info bars) c now).1.status = 404) ∧
    (∀ (req : AnalyzeRequest) (msg : String) (c : Cache) (now : ℚ),
      (∀ m, req.rational_weight ≠ WeightInput.malformed m) →
      pyStrip (pyUpper (req.ticker.getD "")) ≠ "" →
      get_cached_data c (pyStrip (pyUpper (req.ticker.getD ""))) now = none →
      rateLimited msg = true →
      (analyze req (.raised msg) c now).1.status = 429) ∧
    (∀ (req : AnalyzeRequest) (msg : String) (c : Cache) (now : ℚ),
      (∀ m, req.rational_weight ≠ WeightInput.malformed m) →
      pyStrip (pyUpper (req.ticker.getD "")) ≠ "" →
      get_cached_data c (pyStrip (pyUpper (req.ticker.getD ""))) now = none →
      rateLimited msg = false →
      (analyze req (.raised msg) c now).1 =
        { status := 500, error := some ("Error: " ++ msg), result := none }) ∧
    (∀ (req : AnalyzeRequest) (fetch : FetchOutcome) (c : Cache) (now : ℚ) (msg : String),
      req.rational_weight = WeightInput.malformed msg → rateLimited msg = true →
      (analyze req fetch c now).1.status = 429) ∧
    (∀ (req : AnalyzeRequest) (fetch : FetchOutcome) (c : Cache) (now : ℚ) (msg : String),
      req.rational_weight = WeightInput.malformed msg → rateLimited msg = false →
      (analyze req fetch c now).1 =
        { status := 500, error := some ("Error: " ++ msg), result := none }) := by
  refine ⟨?_, ?_, ?_, ?_, ?_, ?_⟩
  · intro req fetch c now hw hempty
    rw [analyze_nonmalformed req fetch c now hw]
    unfold analyzeValidated
    rw [if_pos hempty]
  · intro req info bars c now hw hne hmiss hprice
    rw [analyze_nonmalformed req (.ok info bars) c now hw,
      validated_miss _ _ _ _ _ hne hmiss]
    simp only [analyzeFetch]
    rw [if_pos (by simp [hprice])]
  · intro req msg c now hw hne hmiss hrate
    rw [analyze_nonmalformed req (.raised msg) c now hw,
      validated_miss _ _ _ _ _ hne hmiss]
    have h : (analyzeFetch (pyStrip (pyUpper (req.ticker.getD "")))
        (parsedWeight req.rational_weight / 100) (.raised msg) c now).1
        = classifyException msg := rfl
    rw [h, classify_rate msg hrate]
  · intro req msg c now hw hne hmiss hrate
    rw [analyze_nonmalformed req (.raised msg) c now hw,
      validated_miss _ _ _ _ _ hne hmiss]
    have h : (analyzeFetch (pyStrip (pyUpper (req.ticker.getD "")))
        (parsedWeight req.rational_weight / 100) (.raised msg) c now).1
        = classifyException msg := rfl
    rw [h, classify_other msg hrate]
  · intro req fetch c now msg hw hrate
    rw [analyze_malformed req fetch c now msg hw]
    have h : ((classifyException msg, c)).1 = classifyException msg := rfl
    rw [h, classify_rate msg hrate]
  · intro req fetch c now msg hw hrate
    rw [analyze_malformed req fetch c now msg hw]
    have h : ((classifyException msg, c)).1 = classifyException msg := rfl
    rw [h, classify_other msg hrate]

/-- Witness for C9 as amended: one concrete request per branch of the
taxonomy. -/
theorem C9_error_taxonomy_witness :
    (analyze { ticker := some "", rational_weight := .absent }
      (.ok infoNone []) emptyCache 0).1.status = 400 ∧
    (analyze { ticker := some "A", rational_weight := .absent }
      (.ok infoNone []) emptyCache 0).1.status = 404 ∧
    (analyze { ticker := some "A", rational_weight := .absent }
      (.raised ("HTTP Error 429")) emptyCache 0).1.status = 429 ∧
    (analyze { ticker := some "A", rational_weight := .absent }
      (.raised ("boom")) emptyCache 0).1 =
      { status := 500, error := some ("Error: " ++ "boom"), result := none } ∧
    (analyze { ticker := some "", rational_weight := .malformed ("upstream rate limit") }
      (.ok infoNone []) emptyCache 0).1.status = 429 ∧
    (analyze reqC9 (.ok infoNone []) emptyCache 0).1 =
      { status := 500,
        error := some ("Error: " ++ "could not convert string to float: abc"),
        result := none } :=
  ⟨C9_error_taxonomy.1 { ticker := some "", rational_weight := .absent }
      (.ok infoNone []) emptyCache 0 (fun m h => WeightInput.noConfusion h) rfl,
   C9_error_taxonomy.2.1 { ticker := some "A", rational_weight := .absent }
      infoNone [] emptyCache 0 (fun m h => WeightInput.noConfusion h)
      (by with_unfolding_all decide) rfl rfl,
   C9_error_taxonomy.2.2.1 { ticker := some "A", rational_weight := .absent }
      ("HTTP Error 429") emptyCache 0 (fun m h => WeightInput.noConfusion h)
      (by with_unfolding_all decide) rfl (by with_unfolding_all decide),
   C9_error_taxonomy.2.2.2.1 { ticker := some "A", rational_weight := .absent }
      ("boom") emptyCache 0 (fun m h => WeightInput.noConfusion h)
      (by with_unfolding_all decide) rfl (by with_unfolding_all decide),
   C9_error_taxonomy.2.2.2.2.1
      { ticker := some "", rational_weight := .malformed ("upstream rate limit") }
      (.ok infoNone []) emptyCache 0 ("upstream rate limit") rfl
      (by with_unfolding_all decide),
   C9_error_taxonomy.2.2.2.2.2 reqC9 (.ok infoNone []) emptyCache 0
      ("could not convert string to float: abc") rfl
      (by with_unfolding_all decide)⟩

/-
C10.
-/

/-- C10: on every cache hit the handler writes the recombined result back
into the stored entry (keeping its original timestamp) and returns that
same object; the recombination changes only combined_score,
recommendation, signal_class, rational_weight and adaptive_weight, and
leaves the ticker, company name, current price, both scores, both reason
lists and all raw fundamental fields untouched. -/
theorem C10_cache_hit_frame (req : AnalyzeRequest) (fetch : FetchOutcome) (c : Cache)
    (now ts w : ℚ) (res : AnalysisResult) (T : String)
    (hT : pyStrip (pyUpper (req.ticker.getD "")) = T)
    (hwm : ∀ m, req.rational_weight ≠ WeightInput.malformed m)
    (hpw : parsedWeight req.rational_weight / 100 = w)
    (hne : T ≠ "")
    (hentry : c T = some (res, ts))
    (hfresh : now - ts < CACHE_DURATION) :
    (analyze req fetch c now).1.result = some (recombine res w) ∧
    (analyze req fetch c now).2 T = some (recombine res w, ts) ∧
    (recombine res w).ticker = res.ticker ∧
    (recombine res w).company_name = res.company_name ∧
    (recombine res w).current_price = res.current_price ∧
    (recombine res w).rational_score = res.rational_score ∧
    (recombine res w).adaptive_score = res.adaptive_score ∧
    (recombine res w).rational_reasons = res.rational_reasons ∧
    (recombine res w).adaptive_reasons = res.adaptive_reasons ∧
    (recombine res w).pe_ratio = res.pe_ratio ∧
    (recombine res w).forward_pe = res.forward_pe ∧
    (recombine res w).peg_ratio = res.peg_ratio ∧
    (recombine res w).price_to_book = res.price_to_book ∧
    (recombine res w).market_cap = res.market_cap ∧
    (recombine res w).sector = res.sector ∧
    (recombine res w).industry = res.industry ∧
    (recombine res w).rational_weight = w ∧
    (recombine res w).adaptive_weight = 1 - w := by
  have ha : analyze req fetch c now = analyzeValidated T w fetch c now := by
    rw [analyze_nonmalformed req fetch c now hwm, hT, hpw]
  rw [ha]
  unfold analyzeValidated
  rw [if_neg hne]
  simp only [hentry]
  rw [if_pos hfresh]
  exact ⟨rfl, by simp, rfl, rfl, rfl, rfl, rfl, rfl, rfl, rfl, rfl, rfl, rfl,
    rfl, rfl, rfl, rfl, rfl⟩

/-- The stored entry of the C10 witness. -/
def resC10 : AnalysisResult :=
  { blankResult with ticker := "A", rational_score := 10, adaptive_score := -20 }

/-- A cache holding that entry for ticker A, stamped at time 0. -/
def cC10 : Cache := fun t => if t = "A" then some (resC10, 0) else none

/-- The request of the C10 witness: ticker A, weight 30. -/
def reqC10 : AnalyzeRequest := { ticker := some "A", rational_weight := .value 30 }

/-- Witness for C10 on a concrete cache hit. -/
theorem C10_cache_hit_frame_witness :
    (analyze reqC10 (.ok infoNone []) cC10 5).1.result = some (recombine resC10 (30/100)) ∧
    (analyze reqC10 (.ok infoNone []) cC10 5).2 "A" = some (recombine resC10 (30/100), 0) ∧
    (recombine resC10 (30/100)).ticker = resC10.ticker ∧
    (recombine resC10 (30/100)).company_name = resC10.company_name ∧
    (recombine resC10 (30/100)).current_price = resC10.current_price ∧
    (recombine resC10 (30/100)).rational_score = resC10.rational_score ∧
    (recombine resC10 (30/100)).adaptive_score = resC10.adaptive_score ∧
    (recombine resC10 (30/100)).rational_reasons = resC10.rational_reasons ∧
    (recombine resC10 (30/100)).adaptive_reasons = resC10.adaptive_reasons ∧
    (recombine resC10 (30/100)).pe_ratio = resC10.pe_ratio ∧
    (recombine resC10 (30/100)).forward_pe = resC10.forward_pe ∧
    (recombine resC10 (30/100)).peg_ratio = resC10.peg_ratio ∧
    (recombine resC10 (30/100)).price_to_book = resC10.price_to_book ∧
    (recombine resC10 (30/100)).market_cap = resC10.market_cap ∧
    (recombine resC10 (30/100)).sector = resC10.sector ∧
    (recombine resC10 (30/100)).industry = resC10.industry ∧
    (recombine resC10 (30/100)).rational_weight = 30/100 ∧
    (recombine resC10 (30/100)).adaptive_weight = 1 - 30/100 :=
  C10_cache_hit_frame reqC10 (.ok infoNone []) cC10 5 0 (30/100) resC10 ("A")
    (by with_unfolding_all decide) (fun m h => WeightInput.noConfusion h) rfl
    (by with_unfolding_all decide) (by with_unfolding_all decide)
    (by norm_num [CACHE_DURATION])

end StockApp
